import Mathlib

/-!
Shallow embedding of the Local1-pdf-llama2-chatbot repository
(`frontend_chatbot.py` and `llm_interface.py`): the document store
(`data/` directory), the upload path (`save_uploaded_file`), the
prompt router in `main` (`len(os.listdir('data/')) == 0` dispatching
to `stream_response` or `search_pdf`), the session chat history
(`st.session_state["messages"]`), and the retrieval call
(`search_pdf`).  External collaborators (the Ollama model behind
`stream_response`, the llama-index query engine) are parameters.
-/

namespace BotPDF

/-- File contents: a raw byte sequence. -/
abbrev Bytes := List Nat

/-- The `data/` directory: entries pairing a filename with its stored
bytes.  A directory holds at most one file per name; listing order is
immaterial (`os.listdir` order is unspecified). -/
structure DataDir where
  entries : List (String × Bytes)
deriving DecidableEq, Repr

/-- `os.listdir('data/')`: the names of the stored files. -/
def DataDir.listNames (d : DataDir) : List String :=
  d.entries.map Prod.fst

/-- `open(os.path.join("data", name), "wb"); file.write(b)`
(frontend_chatbot.py lines 25-26, llm_interface.py lines 92-93):
store `b` verbatim under `name`, replacing any existing file of that
name. -/
def DataDir.write (d : DataDir) (name : String) (b : Bytes) : DataDir :=
  ⟨d.entries.filter (fun e => !(e.1 == name)) ++ [(name, b)]⟩

/-- Reading the stored file called `name`, if present. -/
def DataDir.read (d : DataDir) (name : String) : Option Bytes :=
  (d.entries.find? (fun e => e.1 == name)).map Prod.snd

/-- The filesystem as the program sees it: whether the `data`
directory exists, and its contents. -/
structure FS where
  dataDirExists : Bool
  dataDir : DataDir
deriving DecidableEq, Repr

/-- `os.listdir('data/')` at the filesystem level: raises
`FileNotFoundError` when the directory is missing. -/
def listdir (fs : FS) : Except String (List String) :=
  if fs.dataDirExists then Except.ok fs.dataDir.listNames
  else Except.error "FileNotFoundError"

/-- `save_uploaded_file` (frontend_chatbot.py lines 25-27,
llm_interface.py lines 92-94): open `data/<name>` for writing —
which fails if the `data` directory is missing — and write the
uploaded bytes verbatim. -/
def saveUploadedFile (fs : FS) (name : String) (b : Bytes) :
    Except String FS :=
  if fs.dataDirExists then
    Except.ok { fs with dataDir := fs.dataDir.write name b }
  else Except.error "FileNotFoundError"

/-- `if os.path.exists('data') is False: os.mkdir('data')`
(frontend_chatbot.py lines 45-46, llm_interface.py lines 112-113):
a freshly created directory is empty. -/
def ensureDataDir (fs : FS) : FS :=
  if fs.dataDirExists then fs else ⟨true, ⟨[]⟩⟩

/-- The router's two outcomes: `stream_response` (no document
grounding) or `search_pdf` (retrieval over the store). -/
inductive Dispatch
  | gen (prompt : String)
  | search (prompt : String)
deriving DecidableEq, Repr

/-- The dispatch in `main` (frontend_chatbot.py lines 82-87,
llm_interface.py lines 149-154): re-read the directory and pick
`stream_response` iff it has zero entries, else `search_pdf`. -/
def route (fs : FS) (prompt : String) : Except String Dispatch :=
  (listdir fs).map fun names =>
    if names.length = 0 then Dispatch.gen prompt else Dispatch.search prompt

/-- Chat roles as stored in the `"role"` field. -/
inductive Role
  | user
  | assistant
deriving DecidableEq, Repr

/-- The value stored in a message's `"content"` field: Python is
dynamically typed, so it is either a string or a (possibly consumed)
generator of fragments. -/
inductive MsgContent
  | text (s : String)
  | stream (frags : List String)
deriving DecidableEq, Repr

/-- One entry of `st.session_state["messages"]`: user messages have
no `"elapsed_time"` key, assistant messages do. -/
structure ChatTurn where
  role : Role
  content : MsgContent
  elapsed_time : Option ℚ
deriving DecidableEq, Repr

/-- The user message dict `{"role": "user", "content": p}`. -/
def userTurn (p : String) : ChatTurn :=
  ⟨Role.user, MsgContent.text p, none⟩

/-- The assistant message dict
`{"role": "assistant", "content": c, "elapsed_time": t}`. -/
def assistantTurn (c : MsgContent) (t : ℚ) : ChatTurn :=
  ⟨Role.assistant, c, some t⟩

/-- `st.session_state.messages.append({"role": "user", ...})`. -/
def appendUser (msgs : List ChatTurn) (p : String) : List ChatTurn :=
  msgs ++ [userTurn p]

/-- `st.session_state.messages.append({"role": "assistant", ...})`. -/
def appendAssistant (msgs : List ChatTurn) (c : MsgContent) (t : ℚ) :
    List ChatTurn :=
  msgs ++ [assistantTurn c t]

/-- The seeded greeting turn of llm_interface.py line 128. -/
def greeting : ChatTurn :=
  assistantTurn (MsgContent.text "How can I help you?") 0

/-- Chat-history initialization of llm_interface.py lines 127-128:
`if "messages" not in st.session_state` seed the greeting, else keep
the existing log.  `none` models an absent `"messages"` key. -/
def initMessages_li (s : Option (List ChatTurn)) : List ChatTurn :=
  match s with
  | none => [greeting]
  | some msgs => msgs

/-- Chat-history initialization of frontend_chatbot.py lines 58-63:
`if "messages" not in st.session_state` create an empty log, else
keep the existing log. -/
def initMessages_fc (s : Option (List ChatTurn)) : List ChatTurn :=
  match s with
  | none => []
  | some msgs => msgs

/-- Running the llm_interface.py initializer as a state update: after
it, the `"messages"` key is always present. -/
def initStep_li (s : Option (List ChatTurn)) : Option (List ChatTurn) :=
  some (initMessages_li s)

/-- Running the frontend_chatbot.py initializer as a state update. -/
def initStep_fc (s : Option (List ChatTurn)) : Option (List ChatTurn) :=
  some (initMessages_fc s)

/-- `st.write_stream(gen)`: drain the fragment stream, displaying
each fragment, and return the concatenation. -/
def writeStream (frags : List String) : String :=
  String.join frags

/-- The assistant `"content"` persisted by llm_interface.py lines
151/154 then 161: `response = st.write_stream(...)` is the
concatenated text. -/
def persistedAssistantContent_li (frags : List String) : MsgContent :=
  MsgContent.text (writeStream frags)

/-- The assistant `"content"` persisted by frontend_chatbot.py lines
84/87 then 97: `response = stream_response(prompt)` (or
`search_pdf(prompt)`) is the generator object itself, which line 97
appends to the history unconcatenated. -/
def persistedAssistantContent_fc (frags : List String) : MsgContent :=
  MsgContent.stream frags

/-- One prompt turn of llm_interface.py `main` (lines 139-161):
append the user turn, re-check the directory, dispatch to the
generation or the retrieval service, drain the stream with
`st.write_stream`, and append the assistant turn.  The two services
are parameters producing either their fragment stream or an error. -/
def promptTurn (genSvc searchSvc : String → Except String (List String))
    (fs : FS) (msgs : List ChatTurn) (prompt : String) (t : ℚ) :
    Except String (List ChatTurn) := do
  let msgs1 := appendUser msgs prompt
  let names ← listdir fs
  let frags ← if names.length = 0 then genSvc prompt else searchSvc prompt
  let response := writeStream frags
  pure (appendAssistant msgs1 (MsgContent.text response) t)

/-- A document loaded from the store: filename plus contents. -/
structure Document where
  name : String
  contents : Bytes
deriving DecidableEq, Repr

/-- `SimpleDirectoryReader("data/").load_data()` (llm_interface.py
line 53): load every file currently in the store. -/
def loadData (d : DataDir) : List Document :=
  d.entries.map fun e => ⟨e.1, e.2⟩

/-- The retrieval index, abstracted to the documents it was built
from. -/
structure Index where
  docs : List Document
deriving DecidableEq, Repr

/-- `VectorStoreIndex.from_documents(documents, ...)`
(llm_interface.py lines 65-67): build the index from the freshly
loaded documents. -/
def vectorStoreIndexFromDocuments (docs : List Document) : Index :=
  ⟨docs⟩

/-- What one `search_pdf` call did: the documents it loaded, the
index it built, and the fragment stream it returned. -/
structure SearchResult where
  documents : List Document
  index : Index
  frags : List String
deriving DecidableEq, Repr

/-- `search_pdf` (llm_interface.py lines 42-73): reload every
document under `data/`, rebuild the vector index from them, and
query it.  The llama-index query engine is the parameter
`queryAnswer`.  `SimpleDirectoryReader("data/")` (line 53) fails
when the directory is missing, and raises
`ValueError("No files found in data/.")` when the directory exists
but holds no files. -/
def searchPdf (queryAnswer : Index → String → List String)
    (fs : FS) (query : String) : Except String SearchResult :=
  if fs.dataDirExists then
    if fs.dataDir.entries = [] then
      Except.error "ValueError: No files found in data/."
    else
      let documents := loadData fs.dataDir
      let index := vectorStoreIndexFromDocuments documents
      Except.ok ⟨documents, index, queryAnswer index query⟩
  else Except.error "FileNotFoundError"

/-- The filesystem-visible operations a session rerun of `main` can
perform: the mkdir-if-absent preamble, an upload, or a prompt turn
(which never writes to the store). -/
inductive SessionStep
  | rerunInit
  | upload (name : String) (b : Bytes)
  | prompt (p : String)
deriving DecidableEq, Repr

/-- Effect of one session step on the filesystem.  A failing upload
(missing directory) leaves the filesystem unchanged. -/
def applyStep (step : SessionStep) (fs : FS) : FS :=
  match step with
  | SessionStep.rerunInit => ensureDataDir fs
  | SessionStep.upload name b =>
      match saveUploadedFile fs name b with
      | Except.ok fs2 => fs2
      | Except.error _ => fs
  | SessionStep.prompt _ => fs

/-- Effect of a sequence of session steps on the filesystem. -/
def runSteps (steps : List SessionStep) (fs : FS) : FS :=
  steps.foldl (fun a s => applyStep s a) fs

/-! ### Store lemmas -/

theorem DataDir.read_write (d : DataDir) (name : String) (b : Bytes) :
    (d.write name b).read name = some b := by
  unfold DataDir.write DataDir.read
  rw [List.find?_append]
  have h : (d.entries.filter (fun e => !(e.1 == name))).find?
      (fun e => e.1 == name) = none := by
    rw [List.find?_eq_none]
    intro x hx
    have := List.of_mem_filter hx
    simpa using this
  simp [h, List.find?]

theorem DataDir.mem_listNames_write (d : DataDir) (name : String) (b : Bytes) :
    name ∈ (d.write name b).listNames := by
  unfold DataDir.write DataDir.listNames
  simp

theorem DataDir.listNames_write_ne_nil (d : DataDir) (name : String)
    (b : Bytes) : (d.write name b).listNames ≠ [] := by
  intro h
  have := DataDir.mem_listNames_write d name b
  rw [h] at this
  exact List.not_mem_nil name this

theorem applyStep_preserves (step : SessionStep) (fs : FS)
    (hdir : fs.dataDirExists = true) (hne : fs.dataDir.listNames ≠ []) :
    (applyStep step fs).dataDirExists = true ∧
    (applyStep step fs).dataDir.listNames ≠ [] := by
  cases step with
  | rerunInit =>
      unfold applyStep ensureDataDir
      rw [hdir]
      exact ⟨hdir, hne⟩
  | upload name b =>
      have h : applyStep (SessionStep.upload name b) fs
          = { fs with dataDir := fs.dataDir.write name b } := by
        simp [applyStep, saveUploadedFile, hdir]
      rw [h]
      exact ⟨hdir, DataDir.listNames_write_ne_nil _ _ _⟩
  | prompt p => exact ⟨hdir, hne⟩

theorem saveUploadedFile_ok (fs : FS) (name : String) (b : Bytes)
    (hdir : fs.dataDirExists = true) :
    saveUploadedFile fs name b
      = Except.ok { fs with dataDir := fs.dataDir.write name b } := by
  simp [saveUploadedFile, hdir]

theorem DataDir.entries_write_ne_nil (d : DataDir) (name : String)
    (b : Bytes) : (d.write name b).entries ≠ [] := by
  intro h
  exact DataDir.listNames_write_ne_nil d name b (by simp [DataDir.listNames, h])

theorem searchPdf_ok (queryAnswer : Index → String → List String) (fs : FS)
    (q : String) (hdir : fs.dataDirExists = true)
    (hne : fs.dataDir.entries ≠ []) :
    searchPdf queryAnswer fs q
      = Except.ok ⟨loadData fs.dataDir,
          vectorStoreIndexFromDocuments (loadData fs.dataDir),
          queryAnswer (vectorStoreIndexFromDocuments (loadData fs.dataDir)) q⟩ := by
  simp [searchPdf, hdir, hne]

/-! ### Claims -/

/-- Claim C1: for every prompt and every Document Store state, the
router dispatches to the Generation Service (`stream_response`) iff
the `data/` directory's entry count is 0 at the moment of the call,
and otherwise to the Retrieval Service (`search_pdf`); the check is
re-evaluated per prompt, so a store made non-empty by an upload
switches the dispatch on the next prompt. -/
theorem C1_router_dispatch (fs : FS) (p p2 q : String) (b : Bytes)
    (hdir : fs.dataDirExists = true) :
    (route fs p = Except.ok (Dispatch.gen p) ↔
      fs.dataDir.listNames.length = 0) ∧
    (route fs p = Except.ok (Dispatch.search p) ↔
      fs.dataDir.listNames.length ≠ 0) ∧
    (∀ fs2, saveUploadedFile fs q b = Except.ok fs2 →
      route fs2 p2 = Except.ok (Dispatch.search p2)) := by
  refine ⟨?_, ?_, ?_⟩
  · unfold route listdir
    rw [hdir]
    by_cases h : fs.dataDir.listNames.length = 0 <;> simp [Except.map, h]
  · unfold route listdir
    rw [hdir]
    by_cases h : fs.dataDir.listNames.length = 0 <;> simp [Except.map, h]
  · intro fs2 hsave
    unfold saveUploadedFile at hsave
    rw [hdir] at hsave
    simp only [if_true, Except.ok.injEq] at hsave
    subst hsave
    unfold route listdir
    have hne : ((fs.dataDir.write q b).listNames).length ≠ 0 := by
      simpa [List.length_eq_zero] using
        DataDir.listNames_write_ne_nil fs.dataDir q b
    simp [hdir, Except.map, hne]

theorem C1_router_dispatch_witness :
    (route (FS.mk true ⟨[]⟩) "hi" = Except.ok (Dispatch.gen "hi") ↔
      (FS.mk true ⟨[]⟩).dataDir.listNames.length = 0) ∧
    (route (FS.mk true ⟨[]⟩) "hi" = Except.ok (Dispatch.search "hi") ↔
      (FS.mk true ⟨[]⟩).dataDir.listNames.length ≠ 0) ∧
    (∀ fs2, saveUploadedFile (FS.mk true ⟨[]⟩) "a.pdf" [1] = Except.ok fs2 →
      route fs2 "hi2" = Except.ok (Dispatch.search "hi2")) :=
  C1_router_dispatch (FS.mk true ⟨[]⟩) "hi" "hi2" "a.pdf" [1] rfl

/-- Claim C2: after initializing the session log, appending a user
turn with content `p` and then an assistant turn with content `r` and
elapsed time `t` leaves the log equal to the prior history followed
by exactly those two turns, in that order (both for the
llm_interface.py initializer and the frontend_chatbot.py one). -/
theorem C2_session_log_append (s : Option (List ChatTurn)) (p r : String)
    (t : ℚ) :
    appendAssistant (appendUser (initMessages_li s) p) (MsgContent.text r) t
      = initMessages_li s ++ [userTurn p, assistantTurn (MsgContent.text r) t] ∧
    appendAssistant (appendUser (initMessages_fc s) p) (MsgContent.text r) t
      = initMessages_fc s ++ [userTurn p, assistantTurn (MsgContent.text r) t] := by
  constructor <;> simp [appendUser, appendAssistant]

/-- Claim C3, evaluated at a concrete prompt turn whose response
stream yields the fragments `["Hello", " world"]`: llm_interface.py's
`main` persists the concatenated text (via `st.write_stream`), but
frontend_chatbot.py's `main` persists the response generator object
itself as the assistant turn's content, which is not the concatenated
text (nor any text at all). -/
theorem C3_frontend_persists_generator :
    persistedAssistantContent_li ["Hello", " world"]
      = MsgContent.text "Hello world" ∧
    persistedAssistantContent_fc ["Hello", " world"]
      = MsgContent.stream ["Hello", " world"] ∧
    ∀ s : String,
      persistedAssistantContent_fc ["Hello", " world"] ≠ MsgContent.text s := by
  refine ⟨rfl, rfl, ?_⟩
  intro s h
  exact MsgContent.noConfusion h

/-- Claim C4: saving a second upload under an existing filename
succeeds silently (no error) and overwrites the first: the stored
content at that name is exactly the second upload's bytes. -/
theorem C4_overwrite_silent (fs : FS) (name : String) (b1 b2 : Bytes)
    (hdir : fs.dataDirExists = true) :
    ∃ fs1 fs2, saveUploadedFile fs name b1 = Except.ok fs1 ∧
      saveUploadedFile fs1 name b2 = Except.ok fs2 ∧
      fs2.dataDir.read name = some b2 := by
  refine ⟨{ fs with dataDir := fs.dataDir.write name b1 },
    { fs with dataDir := (fs.dataDir.write name b1).write name b2 },
    ?_, ?_, ?_⟩
  · simp [saveUploadedFile, hdir]
  · simp [saveUploadedFile, hdir]
  · exact DataDir.read_write _ name b2

theorem C4_overwrite_silent_witness :
    ∃ fs1 fs2, saveUploadedFile (FS.mk true ⟨[]⟩) "a.pdf" [1] = Except.ok fs1 ∧
      saveUploadedFile fs1 "a.pdf" [2] = Except.ok fs2 ∧
      fs2.dataDir.read "a.pdf" = some [2] :=
  C4_overwrite_silent (FS.mk true ⟨[]⟩) "a.pdf" [1] [2] rfl

/-- Claim C5: write/read round trip — after `save(bytes, name)` the
store listing includes `name` and reading the stored file at `name`
returns exactly the saved bytes. -/
theorem C5_save_roundtrip (fs : FS) (name : String) (b : Bytes)
    (hdir : fs.dataDirExists = true) :
    ∃ fs2, saveUploadedFile fs name b = Except.ok fs2 ∧
      name ∈ fs2.dataDir.listNames ∧
      fs2.dataDir.read name = some b := by
  refine ⟨{ fs with dataDir := fs.dataDir.write name b }, ?_, ?_, ?_⟩
  · simp [saveUploadedFile, hdir]
  · exact DataDir.mem_listNames_write _ _ _
  · exact DataDir.read_write _ _ _

theorem C5_save_roundtrip_witness :
    ∃ fs2, saveUploadedFile (FS.mk true ⟨[("b.pdf", [9])]⟩) "a.pdf" [1, 2]
        = Except.ok fs2 ∧
      "a.pdf" ∈ fs2.dataDir.listNames ∧
      fs2.dataDir.read "a.pdf" = some [1, 2] :=
  C5_save_roundtrip (FS.mk true ⟨[("b.pdf", [9])]⟩) "a.pdf" [1, 2] rfl

/-- Claim C6: running the session-log initializer a second time is a
no-op on the turn log — it neither resets the log nor duplicates any
existing turn (for both files' initializers). -/
theorem C6_init_idempotent (s : Option (List ChatTurn))
    (msgs : List ChatTurn) :
    initStep_li (initStep_li s) = initStep_li s ∧
    initStep_fc (initStep_fc s) = initStep_fc s ∧
    initStep_li (some msgs) = some msgs ∧
    initStep_fc (some msgs) = some msgs := by
  refine ⟨?_, ?_, rfl, rfl⟩ <;> cases s <;> rfl

/-- Claim C7: a failure of Document Store I/O or of the dispatched
service propagates out of the prompt turn unchanged — no retry, no
fallback to the other service (the other service is arbitrary and
unused), no recovery handler. -/
theorem C7_errors_propagate
    (genSvc searchSvc altGen altSearch : String → Except String (List String))
    (fs : FS) (msgs : List ChatTurn) (p : String) (t : ℚ) (e : String) :
    (fs.dataDirExists = true → fs.dataDir.listNames.length = 0 →
      genSvc p = Except.error e →
      promptTurn genSvc altSearch fs msgs p t = Except.error e) ∧
    (fs.dataDirExists = true → fs.dataDir.listNames.length ≠ 0 →
      searchSvc p = Except.error e →
      promptTurn altGen searchSvc fs msgs p t = Except.error e) ∧
    (fs.dataDirExists = false →
      promptTurn genSvc searchSvc fs msgs p t
        = Except.error "FileNotFoundError") := by
  refine ⟨?_, ?_, ?_⟩
  · intro hdir hlen hgen
    have hnil : fs.dataDir.listNames = [] := List.length_eq_zero.mp hlen
    simp [promptTurn, listdir, hdir, hnil, hgen, Bind.bind, Except.bind,
      Functor.map, Except.map]
  · intro hdir hlen hsearch
    have hnil : fs.dataDir.listNames ≠ [] := by
      intro h
      exact hlen (by simp [h])
    simp [promptTurn, listdir, hdir, hnil, hsearch, Bind.bind, Except.bind,
      Functor.map, Except.map]
  · intro hdir
    simp [promptTurn, listdir, hdir, Bind.bind, Except.bind]

theorem C7_errors_propagate_witness :
    promptTurn (fun _ => Except.error "boom") (fun _ => Except.ok ["ok"])
      (FS.mk true ⟨[]⟩) [] "hi" 0 = Except.error "boom" ∧
    promptTurn (fun _ => Except.ok ["ok"]) (fun _ => Except.error "crash")
      (FS.mk true ⟨[("a.pdf", [1])]⟩) [] "hi" 0 = Except.error "crash" ∧
    promptTurn (fun _ => Except.ok ["ok"]) (fun _ => Except.ok ["ok"])
      (FS.mk false ⟨[]⟩) [] "hi" 0 = Except.error "FileNotFoundError" :=
  ⟨(C7_errors_propagate (fun _ => Except.error "boom") (fun _ => Except.ok ["ok"])
      (fun _ => Except.ok ["ok"]) (fun _ => Except.ok ["ok"])
      (FS.mk true ⟨[]⟩) [] "hi" 0 "boom").1 rfl rfl rfl,
   (C7_errors_propagate (fun _ => Except.ok ["ok"]) (fun _ => Except.error "crash")
      (fun _ => Except.ok ["ok"]) (fun _ => Except.ok ["ok"])
      (FS.mk true ⟨[("a.pdf", [1])]⟩) [] "hi" 0 "crash").2.1 rfl (by decide) rfl,
   (C7_errors_propagate (fun _ => Except.ok ["ok"]) (fun _ => Except.ok ["ok"])
      (fun _ => Except.ok ["ok"]) (fun _ => Except.ok ["ok"])
      (FS.mk false ⟨[]⟩) [] "hi" 0 "FileNotFoundError").2.2 rfl⟩

/-- Claim C8: once the Document Store is non-empty, no sequence of
exposed session operations (rerun preamble, upload, prompt) ever
returns it to empty — the upload transition is one-directional. -/
theorem C8_store_stays_nonempty (steps : List SessionStep) (fs : FS)
    (hdir : fs.dataDirExists = true) (hne : fs.dataDir.listNames ≠ []) :
    (runSteps steps fs).dataDirExists = true ∧
    (runSteps steps fs).dataDir.listNames ≠ [] := by
  induction steps generalizing fs with
  | nil => exact ⟨hdir, hne⟩
  | cons s rest ih =>
      have h := applyStep_preserves s fs hdir hne
      exact ih (applyStep s fs) h.1 h.2

theorem C8_store_stays_nonempty_witness :
    (runSteps [SessionStep.rerunInit, SessionStep.prompt "hi",
        SessionStep.upload "b.pdf" [2]]
      (FS.mk true ⟨[("a.pdf", [1])]⟩)).dataDirExists = true ∧
    (runSteps [SessionStep.rerunInit, SessionStep.prompt "hi",
        SessionStep.upload "b.pdf" [2]]
      (FS.mk true ⟨[("a.pdf", [1])]⟩)).dataDir.listNames ≠ [] :=
  C8_store_stays_nonempty _ (FS.mk true ⟨[("a.pdf", [1])]⟩) rfl (by decide)

/-- Claim C9: every `search_pdf` call on a non-empty store (the only
state in which the router calls it, and the only one
`SimpleDirectoryReader` accepts without raising) reloads all
documents currently in the store and rebuilds the retrieval index
from scratch before answering; a call after an upload uses an index
built from the updated store (which contains the new document), not
any index from a prior call. -/
theorem C9_search_rebuilds_index (queryAnswer : Index → String → List String)
    (fs fs2 : FS) (q q2 name : String) (b : Bytes) (r : SearchResult)
    (hdir : fs.dataDirExists = true)
    (hne : fs.dataDir.entries ≠ [])
    (hsave : saveUploadedFile fs name b = Except.ok fs2)
    (hsearch : searchPdf queryAnswer fs2 q2 = Except.ok r) :
    searchPdf queryAnswer fs q
      = Except.ok ⟨loadData fs.dataDir,
          vectorStoreIndexFromDocuments (loadData fs.dataDir),
          queryAnswer (vectorStoreIndexFromDocuments (loadData fs.dataDir)) q⟩ ∧
    r.index = vectorStoreIndexFromDocuments (loadData fs2.dataDir) ∧
    Document.mk name b ∈ r.index.docs := by
  rw [saveUploadedFile_ok fs name b hdir] at hsave
  injection hsave with h2
  subst h2
  have hdir2 : (FS.mk fs.dataDirExists (fs.dataDir.write name b)).dataDirExists
      = true := hdir
  have hne2 : (FS.mk fs.dataDirExists (fs.dataDir.write name b)).dataDir.entries
      ≠ [] := DataDir.entries_write_ne_nil fs.dataDir name b
  rw [searchPdf_ok queryAnswer _ q2 hdir2 hne2] at hsearch
  injection hsearch with h3
  subst h3
  refine ⟨searchPdf_ok queryAnswer fs q hdir hne, rfl, ?_⟩
  simp [loadData, vectorStoreIndexFromDocuments, DataDir.write]

theorem C9_search_rebuilds_index_witness :
    searchPdf (fun _ _ => ["ans"]) (FS.mk true ⟨[("a.pdf", [1])]⟩) "q"
      = Except.ok ⟨loadData (DataDir.mk [("a.pdf", [1])]),
          vectorStoreIndexFromDocuments (loadData (DataDir.mk [("a.pdf", [1])])),
          ["ans"]⟩ ∧
    (SearchResult.mk [Document.mk "a.pdf" [1], Document.mk "b.pdf" [2]]
        ⟨[Document.mk "a.pdf" [1], Document.mk "b.pdf" [2]]⟩ ["ans"]).index
      = vectorStoreIndexFromDocuments
          (loadData (DataDir.mk [("a.pdf", [1]), ("b.pdf", [2])])) ∧
    Document.mk "b.pdf" [2]
      ∈ (SearchResult.mk [Document.mk "a.pdf" [1], Document.mk "b.pdf" [2]]
          ⟨[Document.mk "a.pdf" [1], Document.mk "b.pdf" [2]]⟩
          ["ans"]).index.docs :=
  C9_search_rebuilds_index (fun _ _ => ["ans"])
    (FS.mk true ⟨[("a.pdf", [1])]⟩)
    (FS.mk true ⟨[("a.pdf", [1]), ("b.pdf", [2])]⟩) "q" "q2" "b.pdf" [2]
    (SearchResult.mk [Document.mk "a.pdf" [1], Document.mk "b.pdf" [2]]
      ⟨[Document.mk "a.pdf" [1], Document.mk "b.pdf" [2]]⟩ ["ans"])
    rfl (by decide) rfl rfl

/-- Claim C10: `main` creates the `data` directory (if absent) before
any prompt can be routed, so the directory listing in the routing
check operates on an existing directory and the missing-directory
error branch of the dispatch is unreachable within a session started
by `main`. -/
theorem C10_data_dir_created (fs : FS) (p : String) :
    (ensureDataDir fs).dataDirExists = true ∧
    (∃ names, listdir (ensureDataDir fs) = Except.ok names) ∧
    (∃ d, route (ensureDataDir fs) p = Except.ok d) := by
  have hd : (ensureDataDir fs).dataDirExists = true := by
    unfold ensureDataDir
    by_cases h : fs.dataDirExists <;> simp [h]
  refine ⟨hd, ⟨(ensureDataDir fs).dataDir.listNames, ?_⟩, ?_⟩
  · simp [listdir, hd]
  · refine ⟨if (ensureDataDir fs).dataDir.listNames.length = 0
      then Dispatch.gen p else Dispatch.search p, ?_⟩
    simp [route, listdir, hd, Except.map]

end BotPDF
